import Mathlib

/-!
Shallow embedding of `src/main.rs` of the compute-shader-playground
repository (a minimal Bevy program that runs a compute shader over a
storage texture every frame and shows it as a sprite).

Pure constants and functions of the Rust source become Lean functions;
the engine-owned state the program manipulates (assets, render-world
resources, the pipeline cache, the render graph, GPU command encoding)
becomes explicit state passed to and returned from those functions.
Machine integers are modelled as `Nat` (all arithmetic in the source is
on small non-negative constants, far from `u32` overflow); `f32` fields
that only ever hold small integers exactly representable in `f32`
(sprite sizes, transform scales) are modelled as `ℚ`.  A Rust `.unwrap()`
becomes an `Option` whose `none` models the panic.
-/

namespace ComputeShaderPlayground

/-- Constant `SHADER_PATH` from `main.rs` line 25. -/
def SHADER_PATH : String := "shader.wgsl"

/-- Constant `DISPLAY_FACTOR` from `main.rs` line 26. -/
def DISPLAY_FACTOR : Nat := 4

/-- Constant `SIZE` from `main.rs` line 28; `.1`/`.2` stand for the Rust
tuple fields `.0`/`.1`. -/
def SIZE : Nat × Nat := (1280 / DISPLAY_FACTOR, 720 / DISPLAY_FACTOR)

/-- Constant `WORKGROUP_SIZE` from `main.rs` line 30. -/
def WORKGROUP_SIZE : Nat := 8

/-- Texture formats used by the program (`TextureFormat::Rgba8Unorm`). -/
inductive TextureFormat
  | Rgba8Unorm
deriving DecidableEq, Repr

/-- Texture dimensions (`TextureDimension::D2`). -/
inductive TextureDimension
  | D1
  | D2
  | D3
deriving DecidableEq, Repr

/-- Mirrors `wgpu::Extent3d` as used at `main.rs` lines 41-45. -/
structure Extent3d where
  width : Nat
  height : Nat
  depth_or_array_layers : Nat
deriving DecidableEq, Repr

/-- Texture-usage flag set; the program uses `COPY_DST`, `STORAGE_BINDING`
and `TEXTURE_BINDING` (`main.rs` lines 52-53). -/
structure TextureUsages where
  copy_dst : Bool
  storage_binding : Bool
  texture_binding : Bool
deriving DecidableEq, Repr

/-- Mirrors `RenderAssetUsages`; setup passes `RENDER_WORLD` (line 49). -/
structure RenderAssetUsages where
  main_world : Bool
  render_world : Bool
deriving DecidableEq, Repr

/-- The `RENDER_WORLD` constant of `RenderAssetUsages`. -/
def RenderAssetUsages.RENDER_WORLD : RenderAssetUsages :=
  { main_world := false, render_world := true }

/-- The fields of `bevy::image::Image` the program touches: the texture
descriptor data (size, dimension, format, usage), the raw byte data, and
the asset usage passed at construction. -/
structure Image where
  size : Extent3d
  dimension : TextureDimension
  format : TextureFormat
  data : List Nat
  usage : TextureUsages
  asset_usage : RenderAssetUsages
deriving DecidableEq, Repr

/-- Mirrors `Image::new_fill`: the data buffer is the pixel byte pattern
repeated once per texel of the extent's volume.  The freshly constructed
image carries Bevy's default texture usage (`TEXTURE_BINDING`); `setup`
overwrites the usage immediately, so no claim depends on this default. -/
def Image.new_fill (size : Extent3d) (dimension : TextureDimension)
    (pixel : List Nat) (format : TextureFormat)
    (asset_usage : RenderAssetUsages) : Image :=
  { size := size
    dimension := dimension
    format := format
    data := (List.replicate (size.width * size.height * size.depth_or_array_layers) pixel).flatten
    usage := { copy_dst := false, storage_binding := false, texture_binding := true }
    asset_usage := asset_usage }

/-- Texel `i` of an image's byte data, as the 4 bytes starting at offset
`4 * i` (all images in this program are `Rgba8Unorm`, 4 bytes per texel). -/
def Image.texel (img : Image) (i : Nat) : List Nat :=
  (img.data.drop (4 * i)).take 4

/-- An asset handle (`Handle<Image>`), identified by the id the asset
store assigned. -/
structure Handle where
  id : Nat
deriving DecidableEq, Repr

/-- The `Assets<Image>` store: a fresh-id counter and the stored images. -/
structure Assets where
  next : Nat
  items : List (Nat × Image)
deriving DecidableEq, Repr

/-- Mirrors `Assets::add`: stores the image under a fresh id and returns
the handle to it. -/
def Assets.add (a : Assets) (img : Image) : Assets × Handle :=
  ({ next := a.next + 1, items := (a.next, img) :: a.items }, ⟨a.next⟩)

/-- Sprite component fields used by `setup` (`main.rs` lines 58-62). -/
structure Sprite where
  image : Handle
  custom_size : Option (ℚ × ℚ)
deriving DecidableEq, Repr

/-- Transform component; only the scale is set (`main.rs` line 63). -/
structure Transform where
  scale : ℚ × ℚ × ℚ
deriving DecidableEq, Repr

/-- Mirrors `Transform::from_scale(Vec3::splat s)`. -/
def Transform.from_scale (s : ℚ) : Transform :=
  { scale := (s, s, s) }

/-- The `ComputeShaderImage` resource (`main.rs` lines 72-75). -/
structure ComputeShaderImage where
  texture : Handle
deriving DecidableEq, Repr

/-- Entities spawned by `setup`: the sprite bundle and the 2D camera. -/
inductive SpawnedEntity
  | sprite (s : Sprite) (t : Transform)
  | camera2d
deriving DecidableEq, Repr

/-- Everything `setup` does to the world: the updated image assets, the
entities spawned (in spawn order) and the resources inserted. -/
structure SetupEffects where
  images : Assets
  entities : List SpawnedEntity
  resources : List ComputeShaderImage
deriving DecidableEq, Repr

/-- The image value `setup` constructs (`main.rs` lines 40-53): a
`SIZE.0 x SIZE.1 x 1` `Rgba8Unorm` image filled with `[255,0,0,255]`,
with its usage then set to `COPY_DST | STORAGE_BINDING | TEXTURE_BINDING`. -/
def setupImage : Image :=
  let base := Image.new_fill
    { width := SIZE.1, height := SIZE.2, depth_or_array_layers := 1 }
    TextureDimension.D2 [255, 0, 0, 255] TextureFormat.Rgba8Unorm
    RenderAssetUsages.RENDER_WORLD
  { base with
      usage := { copy_dst := true, storage_binding := true, texture_binding := true } }

/-- Mirrors `setup` (`main.rs` lines 39-70): builds `setupImage`, adds it
to the assets, spawns the sprite bundle (handle, custom size `SIZE`,
transform scaled by `DISPLAY_FACTOR`), spawns `Camera2d`, and inserts the
`ComputeShaderImage` resource holding the handle. -/
def setup (images : Assets) : SetupEffects :=
  let p := images.add setupImage
  { images := p.1
    entities :=
      [ SpawnedEntity.sprite
          { image := p.2
            custom_size := some ((SIZE.1 : ℚ), (SIZE.2 : ℚ)) }
          (Transform.from_scale (DISPLAY_FACTOR : ℚ))
      , SpawnedEntity.camera2d ]
    resources := [{ texture := p.2 }] }

/-- Shader stages; the layout entry is visible to `ShaderStages::COMPUTE`
(`main.rs` line 130). -/
inductive ShaderStages
  | COMPUTE
  | VERTEX
  | FRAGMENT
deriving DecidableEq, Repr

/-- Storage-texture access mode (`StorageTextureAccess::ReadWrite`). -/
inductive StorageTextureAccess
  | ReadOnly
  | WriteOnly
  | ReadWrite
deriving DecidableEq, Repr

/-- Binding types; `texture_storage_2d fmt access` mirrors the helper of
the same name used at `main.rs` line 131. -/
inductive BindingType
  | texture_storage_2d (format : TextureFormat) (access : StorageTextureAccess)
deriving DecidableEq, Repr

/-- One entry of a bind group layout: a visibility and a binding type. -/
structure BindGroupLayoutEntry where
  visibility : ShaderStages
  ty : BindingType
deriving DecidableEq, Repr

/-- A bind group layout: its label and its entries in order. -/
structure BindGroupLayout where
  label : String
  entries : List BindGroupLayoutEntry
deriving DecidableEq, Repr

/-- A resource bound into a bind group; the program only ever binds a
texture view (identified by its id). -/
inductive BindingResource
  | textureView (id : Nat)
deriving DecidableEq, Repr

/-- A bind group: label, the layout it was created against, and the bound
resources in slot order. -/
structure BindGroup where
  label : Option String
  layout : BindGroupLayout
  entries : List BindingResource
deriving DecidableEq, Repr

/-- Mirrors `RenderDevice::create_bind_group(label, layout, entries)`
(`main.rs` lines 85-89). -/
def create_bind_group (label : Option String) (layout : BindGroupLayout)
    (entries : List BindingResource) : BindGroup :=
  { label := label, layout := layout, entries := entries }

/-- A compiled GPU compute pipeline, as handed back by the cache. -/
structure ComputePipeline where
  id : Nat
deriving DecidableEq, Repr

/-- The fields of `ComputePipelineDescriptor` the program fills in
(`main.rs` lines 137-145). -/
structure ComputePipelineDescriptor where
  label : Option String
  layout : List BindGroupLayout
  push_constant_ranges : List Nat
  shader : String
  shader_defs : List String
  entry_point : String
  zero_initialize_workgroup_memory : Bool
deriving DecidableEq, Repr

/-- The pipeline cache: descriptors queued for compilation (the queue
position is the `CachedComputePipelineId`) and the pipelines the GPU has
finished compiling, keyed by that id. -/
structure PipelineCache where
  queued : List ComputePipelineDescriptor
  compiled : List (Nat × ComputePipeline)
deriving DecidableEq, Repr

/-- Mirrors `PipelineCache::queue_compute_pipeline`: appends the
descriptor and returns its id. -/
def PipelineCache.queue_compute_pipeline (c : PipelineCache)
    (d : ComputePipelineDescriptor) : PipelineCache × Nat :=
  ({ c with queued := c.queued ++ [d] }, c.queued.length)

/-- Mirrors `PipelineCache::get_compute_pipeline`: `some` exactly when the
pipeline with that id has finished compiling. -/
def PipelineCache.get_compute_pipeline (c : PipelineCache) (id : Nat) :
    Option ComputePipeline :=
  (c.compiled.find? (fun p => p.1 == id)).map Prod.snd

/-- The `ComputeShaderPipeline` resource (`main.rs` lines 118-122). -/
structure ComputeShaderPipeline where
  bind_group_layout : BindGroupLayout
  pipeline : Nat
deriving DecidableEq, Repr

/-- Mirrors `ComputeShaderPipeline::from_world` (`main.rs` lines 124-151):
creates the single-entry storage-texture layout, queues the compute
pipeline for the shader's `init` entry point, and returns the resource
together with the updated cache. -/
def ComputeShaderPipeline.from_world (cache : PipelineCache) :
    ComputeShaderPipeline × PipelineCache :=
  let bind_group_layout : BindGroupLayout :=
    { label := "Image"
      entries :=
        [ { visibility := ShaderStages.COMPUTE
            ty := BindingType.texture_storage_2d TextureFormat.Rgba8Unorm
              StorageTextureAccess.ReadWrite } ] }
  let q := cache.queue_compute_pipeline
    { label := none
      layout := [bind_group_layout]
      push_constant_ranges := []
      shader := SHADER_PATH
      shader_defs := []
      entry_point := "init"
      zero_initialize_workgroup_memory := false }
  ({ bind_group_layout := bind_group_layout, pipeline := q.2 }, q.1)

/-- A GPU image as stored in `RenderAssets<GpuImage>`; the program only
uses its texture view. -/
structure GpuImage where
  texture_view : Nat
deriving DecidableEq, Repr

/-- The `RenderAssets<GpuImage>` store: prepared GPU images keyed by the
asset id of their source image. -/
structure RenderAssets where
  items : List (Nat × GpuImage)
deriving DecidableEq, Repr

/-- Mirrors `RenderAssets::get(handle)`. -/
def RenderAssets.get (ra : RenderAssets) (h : Handle) : Option GpuImage :=
  (ra.items.find? (fun p => p.1 == h.id)).map Prod.snd

/-- Mirrors `prepare_bind_group` (`main.rs` lines 77-91) as a value: the
bind group it creates and inserts as `ComputeShaderBindGroup`.  The Rust
body calls `.unwrap()` on the GPU-image lookup, so a failed lookup is a
panic, modelled by `none`. -/
def prepare_bind_group (pipeline : ComputeShaderPipeline)
    (gpu_image : RenderAssets) (compute_shader_image : ComputeShaderImage) :
    Option BindGroup :=
  match gpu_image.get compute_shader_image.texture with
  | none => none
  | some view =>
      some (create_bind_group none pipeline.bind_group_layout
        [BindingResource.textureView view.texture_view])

/-- The render-world state the per-frame systems read and write: the
extracted `ComputeShaderImage`, the prepared GPU images, the pipeline
resource, the pipeline cache, and the `ComputeShaderBindGroup` resource
(absent before the first successful prepare). -/
structure RenderWorldState where
  csi : ComputeShaderImage
  gpuImages : RenderAssets
  pipeline : ComputeShaderPipeline
  cache : PipelineCache
  bindGroup : Option BindGroup
deriving DecidableEq, Repr

/-- One run of the `prepare_bind_group` system over the render world:
creates the frame's bind group and inserts it as the
`ComputeShaderBindGroup` resource (overwriting any previous value);
`none` models the panic of the `.unwrap()`. -/
def prepareStep (st : RenderWorldState) : Option RenderWorldState :=
  (prepare_bind_group st.pipeline st.gpuImages st.csi).map
    (fun bg => { st with bindGroup := some bg })

/-- The error type of `render_graph::Node::run` (Bevy's `NodeRunError`). -/
inductive NodeRunError
  | inputSlotError
  | outputSlotError
  | runSubGraphError
deriving DecidableEq, Repr

/-- GPU commands the node encodes into the frame's command encoder. -/
inductive GpuCommand
  | beginComputePass
  | setBindGroup (index : Nat) (group : BindGroup) (dynamicOffsets : List Nat)
  | setPipeline (p : ComputePipeline)
  | dispatchWorkgroups (x y z : Nat)
deriving DecidableEq, Repr

/-- The world resources `ComputeShaderNode::run` fetches (`main.rs` lines
170-172).  Rust's `world.resource::<T>()` panics when `T` is absent, so a
world on which `run` proceeds has all three present; the struct carries
exactly those. -/
structure RunWorld where
  bind_group : BindGroup
  pipeline_cache : PipelineCache
  pipeline : ComputeShaderPipeline
deriving DecidableEq, Repr

/-- Mirrors `ComputeShaderNode::run` (`main.rs` lines 163-184): when the
cache has the compiled pipeline it begins a compute pass, sets bind group
0 with no dynamic offsets, sets the pipeline and dispatches
`(SIZE.0 / WORKGROUP_SIZE, SIZE.1 / WORKGROUP_SIZE, 1)` workgroups;
otherwise it encodes nothing.  Either way it returns `Ok(())`.  The first
component is the command sequence encoded into the render context. -/
def ComputeShaderNode.run (world : RunWorld) :
    List GpuCommand × Except NodeRunError Unit :=
  match world.pipeline_cache.get_compute_pipeline world.pipeline.pipeline with
  | some cpipeline =>
      ([ GpuCommand.beginComputePass
       , GpuCommand.setBindGroup 0 world.bind_group []
       , GpuCommand.setPipeline cpipeline
       , GpuCommand.dispatchWorkgroups (SIZE.1 / WORKGROUP_SIZE)
           (SIZE.2 / WORKGROUP_SIZE) 1 ],
       Except.ok ())
  | none => ([], Except.ok ())

/-- Render-graph node labels: the program's `ComputeShaderLabel` and the
engine's `CameraDriverLabel` (`main.rs` lines 106-107). -/
inductive NodeLabel
  | computeShaderLabel
  | cameraDriverLabel
deriving DecidableEq, Repr, BEq

/-- The render graph as the program sees it: added nodes and dependency
edges; an edge `(a, b)` means `a` must run before `b`. -/
structure RenderGraph where
  nodes : List NodeLabel
  edges : List (NodeLabel × NodeLabel)
deriving DecidableEq, Repr

/-- Mirrors `RenderGraph::add_node`. -/
def RenderGraph.add_node (g : RenderGraph) (l : NodeLabel) : RenderGraph :=
  { g with nodes := g.nodes ++ [l] }

/-- Mirrors `RenderGraph::add_node_edge(a, b)`: `a` becomes a dependency
that must run before `b`. -/
def RenderGraph.add_node_edge (g : RenderGraph) (a b : NodeLabel) :
    RenderGraph :=
  { g with edges := g.edges ++ [(a, b)] }

/-- An execution order of graph nodes respects the graph's edges when the
source of every edge appears strictly before its target. -/
def respectsEdges (g : RenderGraph) (order : List NodeLabel) : Prop :=
  ∀ e ∈ g.edges, order.indexOf e.1 < order.indexOf e.2

instance (g : RenderGraph) (order : List NodeLabel) :
    Decidable (respectsEdges g order) :=
  List.decidableBAll
    (fun (e : NodeLabel × NodeLabel) =>
      List.indexOf e.1 order < List.indexOf e.2 order)
    g.edges

/-- Schedule labels the program registers systems under. -/
inductive ScheduleLabel
  | Startup
  | Render
deriving DecidableEq, Repr

/-- The render-schedule system set used (`RenderSet::PrepareBindGroups`). -/
inductive RenderSet
  | PrepareBindGroups
deriving DecidableEq, Repr

/-- Names for the two systems the program defines. -/
inductive SystemName
  | setupSystem
  | prepareBindGroupSystem
deriving DecidableEq, Repr

/-- What `main` plus `ComputeShaderPlugin::build` register on the app:
main-world systems with their schedules, render-world systems with their
schedule and set, and the render graph after the plugin's additions. -/
structure AppConfig where
  mainSystems : List (ScheduleLabel × SystemName)
  renderSystems : List (ScheduleLabel × RenderSet × SystemName)
  graph : RenderGraph
deriving DecidableEq, Repr

/-- Mirrors the registrations of `main` (`main.rs` lines 32-38) and
`ComputeShaderPlugin::build` (`main.rs` lines 96-108): `setup` goes into
the `Startup` schedule, `prepare_bind_group` into the `Render` schedule in
`RenderSet::PrepareBindGroups`, and the compute node is added to the
render graph with an edge from it to the camera driver. -/
def buildApp : AppConfig :=
  { mainSystems := [(ScheduleLabel.Startup, SystemName.setupSystem)]
    renderSystems :=
      [(ScheduleLabel.Render, RenderSet.PrepareBindGroups,
        SystemName.prepareBindGroupSystem)]
    graph :=
      (RenderGraph.add_node { nodes := [], edges := [] }
          NodeLabel.computeShaderLabel).add_node_edge
        NodeLabel.computeShaderLabel NodeLabel.cameraDriverLabel }

/-- Texel `(x, y)` of the image lies under the dispatched workgroup grid
`groups` when, with `WORKGROUP_SIZE x WORKGROUP_SIZE` workgroups, some
workgroup's invocation has that global id. -/
def coveredTexel (groups : Nat × Nat × Nat) (x y : Nat) : Prop :=
  x < groups.1 * WORKGROUP_SIZE ∧ y < groups.2.1 * WORKGROUP_SIZE

instance (groups : Nat × Nat × Nat) (x y : Nat) :
    Decidable (coveredTexel groups x y) :=
  inferInstanceAs (Decidable (_ ∧ _))

/-! Helper lemmas and concrete sample states used to instantiate the
claim theorems. -/

/-- Taking 4 bytes at offset `4 * i` from `n` flattened copies of a
4-byte pixel recovers the pixel, for every texel index `i < n`. -/
theorem texel_of_flatten_replicate (pix : List Nat) (hl : pix.length = 4) :
    ∀ n i, i < n →
      (((List.replicate n pix).flatten.drop (4 * i)).take 4) = pix := by
  intro n
  induction n with
  | zero => intro i h; exact absurd h (Nat.not_lt_zero i)
  | succ n ih =>
    intro i h
    rw [List.replicate_succ, List.flatten_cons]
    cases i with
    | zero =>
      rw [Nat.mul_zero, List.drop_zero, ← hl, List.take_left]
    | succ j =>
      have h4 : 4 * (j + 1) = pix.length + 4 * j := by omega
      rw [h4, ← List.drop_drop, List.drop_left]
      exact ih j (Nat.lt_of_succ_lt_succ h)

/-- The bind group layout `ComputeShaderPipeline::from_world` creates. -/
def sampleLayout : BindGroupLayout :=
  (ComputeShaderPipeline.from_world { queued := [], compiled := [] }).1.bind_group_layout

/-- A concrete bind group over `sampleLayout`, as `prepare_bind_group`
would create it for a GPU image with texture view 5. -/
def sampleBindGroup : BindGroup :=
  create_bind_group none sampleLayout [BindingResource.textureView 5]

/-- A concrete `ComputeShaderPipeline` resource with cached id 0. -/
def samplePipelineRes : ComputeShaderPipeline :=
  { bind_group_layout := sampleLayout, pipeline := 0 }

/-- A render world whose pipeline cache has no compiled pipeline. -/
def emptyCacheWorld : RunWorld :=
  { bind_group := sampleBindGroup
    pipeline_cache := { queued := [], compiled := [] }
    pipeline := samplePipelineRes }

/-- A render world whose pipeline cache has finished compiling the
pipeline with cached id 0. -/
def readyCacheWorld : RunWorld :=
  { bind_group := sampleBindGroup
    pipeline_cache := { queued := [], compiled := [(0, { id := 7 })] }
    pipeline := samplePipelineRes }

/-! Claim theorems. -/

/-- Claim C1 (corrected): on every world whose pipeline has compiled,
`ComputeShaderNode::run` dispatches the fixed grid
`(SIZE.0 / WORKGROUP_SIZE, SIZE.1 / WORKGROUP_SIZE, 1) = (40, 22, 1)`,
but this grid does not cover the whole 320x180 image: it covers exactly
the texels with `y < 22 * 8 = 176`, leaving rows 176..179 uncovered
(`40 * 8 = 320 ≥ 320` holds but `22 * 8 = 176 < 180`). -/
theorem c1_dispatch_grid (w : RunWorld) (cp : ComputePipeline)
    (h : w.pipeline_cache.get_compute_pipeline w.pipeline.pipeline = some cp) :
    (ComputeShaderNode.run w).1 =
      [ GpuCommand.beginComputePass
      , GpuCommand.setBindGroup 0 w.bind_group []
      , GpuCommand.setPipeline cp
      , GpuCommand.dispatchWorkgroups 40 22 1 ] ∧
    SIZE.1 / WORKGROUP_SIZE = 40 ∧ SIZE.2 / WORKGROUP_SIZE = 22 ∧
    40 * WORKGROUP_SIZE ≥ SIZE.1 ∧
    22 * WORKGROUP_SIZE < SIZE.2 ∧
    (∀ x y, x < SIZE.1 → y < SIZE.2 →
      (coveredTexel (40, 22, 1) x y ↔ y < 22 * WORKGROUP_SIZE)) := by
  refine ⟨?_, by decide, by decide, by decide, by decide, ?_⟩
  · unfold ComputeShaderNode.run
    rw [h]
    rfl
  · intro x y hx _
    unfold coveredTexel
    simp only [SIZE, WORKGROUP_SIZE, DISPLAY_FACTOR] at hx ⊢
    omega

/-- Claim C1 witness: the corrected statement instantiated on a concrete
world with a compiled pipeline and the texel `(0, 0)`. -/
theorem c1_dispatch_grid_witness :
    readyCacheWorld.pipeline_cache.get_compute_pipeline
      readyCacheWorld.pipeline.pipeline = some { id := 7 } ∧
    ((ComputeShaderNode.run readyCacheWorld).1 =
      [ GpuCommand.beginComputePass
      , GpuCommand.setBindGroup 0 readyCacheWorld.bind_group []
      , GpuCommand.setPipeline { id := 7 }
      , GpuCommand.dispatchWorkgroups 40 22 1 ] ∧
    SIZE.1 / WORKGROUP_SIZE = 40 ∧ SIZE.2 / WORKGROUP_SIZE = 22 ∧
    40 * WORKGROUP_SIZE ≥ SIZE.1 ∧
    22 * WORKGROUP_SIZE < SIZE.2 ∧
    (∀ x y, x < SIZE.1 → y < SIZE.2 →
      (coveredTexel (40, 22, 1) x y ↔ y < 22 * WORKGROUP_SIZE))) :=
  ⟨by decide, c1_dispatch_grid readyCacheWorld { id := 7 } (by decide)⟩

/-- Claim C1 counterexample: on a world with a compiled pipeline the node
does dispatch `(40, 22, 1)` workgroups, yet texel `(0, 176)` of the
320x180 image is not covered by that grid, refuting the coverage part of
the claim (`22 * 8 = 176 < 180`). -/
theorem c1_coverage_counterexample :
    (ComputeShaderNode.run readyCacheWorld).1.getLast? =
      some (GpuCommand.dispatchWorkgroups 40 22 1) ∧
    176 < SIZE.2 ∧
    ¬ coveredTexel (SIZE.1 / WORKGROUP_SIZE, SIZE.2 / WORKGROUP_SIZE, 1)
        0 176 := by
  decide

/-- Claim C2: whenever the pipeline cache has no compiled pipeline for
the stored id, `ComputeShaderNode::run` encodes no commands at all (no
pass, no bind group, no dispatch) and still returns `Ok(())`; moreover
the emptiness of the encoded command sequence is equivalent to the
pipeline being absent, i.e. pipeline readiness is the only condition the
function branches on. -/
theorem c2_run_skips_when_pipeline_missing (w : RunWorld)
    (h : w.pipeline_cache.get_compute_pipeline w.pipeline.pipeline = none) :
    (ComputeShaderNode.run w).1 = [] ∧
    (ComputeShaderNode.run w).2 = Except.ok () ∧
    (∀ w' : RunWorld,
      (ComputeShaderNode.run w').1 = [] ↔
        w'.pipeline_cache.get_compute_pipeline w'.pipeline.pipeline = none) := by
  refine ⟨?_, ?_, ?_⟩
  · unfold ComputeShaderNode.run
    rw [h]
  · unfold ComputeShaderNode.run
    rw [h]
  · intro w'
    unfold ComputeShaderNode.run
    cases hm : w'.pipeline_cache.get_compute_pipeline w'.pipeline.pipeline with
    | none => simp
    | some cp => simp

/-- Claim C2 witness: the statement instantiated on a concrete world
whose pipeline cache is empty. -/
theorem c2_run_skips_witness :
    emptyCacheWorld.pipeline_cache.get_compute_pipeline
      emptyCacheWorld.pipeline.pipeline = none ∧
    ((ComputeShaderNode.run emptyCacheWorld).1 = [] ∧
    (ComputeShaderNode.run emptyCacheWorld).2 = Except.ok () ∧
    (∀ w' : RunWorld,
      (ComputeShaderNode.run w').1 = [] ↔
        w'.pipeline_cache.get_compute_pipeline w'.pipeline.pipeline = none)) :=
  ⟨by decide, c2_run_skips_when_pipeline_missing emptyCacheWorld (by decide)⟩

/-- Claim C10: `ComputeShaderNode::run` never returns an error — on every
world state, pipeline ready or not, its result is `Ok(())` — and as a
pure function of the (immutably taken) world, equal world states yield
identical encoded command sequences. -/
theorem c10_run_total_and_deterministic :
    (∀ w : RunWorld, (ComputeShaderNode.run w).2 = Except.ok ()) ∧
    (∀ w w' : RunWorld, w = w' →
      ComputeShaderNode.run w = ComputeShaderNode.run w') := by
  constructor
  · intro w
    unfold ComputeShaderNode.run
    cases w.pipeline_cache.get_compute_pipeline w.pipeline.pipeline <;> rfl
  · intro w w' h
    rw [h]

/-- Claim C10 witness: the statement instantiated on a concrete world,
with the world-equality hypothesis discharged by reflexivity. -/
theorem c10_run_total_witness :
    (ComputeShaderNode.run emptyCacheWorld).2 = Except.ok () ∧
    ComputeShaderNode.run emptyCacheWorld =
      ComputeShaderNode.run emptyCacheWorld :=
  ⟨c10_run_total_and_deterministic.1 emptyCacheWorld,
   c10_run_total_and_deterministic.2 emptyCacheWorld emptyCacheWorld rfl⟩

/-- Tests whether a GPU command is a `set_bind_group`. -/
def GpuCommand.isSetBindGroup : GpuCommand → Bool
  | GpuCommand.setBindGroup _ _ _ => true
  | _ => false

/-- A render-world state whose `RenderAssets` hold a GPU image for the
stored handle, so `prepare_bind_group` succeeds on it. -/
def sampleRenderWorldState : RenderWorldState :=
  { csi := { texture := { id := 0 } }
    gpuImages := { items := [(0, { texture_view := 5 })] }
    pipeline := samplePipelineRes
    cache := { queued := [], compiled := [] }
    bindGroup := none }

/-- Claim C3 (corrected): `ComputeShaderNode::run` itself never fails, and
the pipeline-readiness branch is its only fallibility; but
`prepare_bind_group` has one further failure point: its `.unwrap()` of
the GPU-image lookup panics exactly when `RenderAssets` holds no GPU
image for the handle stored in `ComputeShaderImage` — when that lookup
succeeds, `prepare_bind_group` cannot fail. -/
theorem c3_fallibility_points (p : ComputeShaderPipeline) (ra : RenderAssets)
    (csi : ComputeShaderImage) :
    ((prepare_bind_group p ra csi).isSome ↔ (ra.get csi.texture).isSome) ∧
    (∀ w : RunWorld, (ComputeShaderNode.run w).2 = Except.ok ()) := by
  constructor
  · unfold prepare_bind_group
    cases ra.get csi.texture <;> simp
  · intro w
    unfold ComputeShaderNode.run
    cases w.pipeline_cache.get_compute_pipeline w.pipeline.pipeline <;> rfl

/-- Claim C3 counterexample: when the `RenderAssets` store holds no GPU
image for the stored handle, `prepare_bind_group` hits its `.unwrap()`
panic (modelled by `none`), so the program has a failure point beyond the
pipeline-readiness branch, refuting the claim that `prepare_bind_group`
cannot fail. -/
theorem c3_unwrap_counterexample :
    prepare_bind_group samplePipelineRes { items := [] }
      { texture := { id := 0 } } = none := by
  decide

/-- Claim C4: the app registers `setup` exactly once, under the `Startup`
schedule, and on any asset store `setup` adds exactly one image asset —
one whose usages include `STORAGE_BINDING` — spawns exactly one sprite
entity referencing that image's handle with a `DISPLAY_FACTOR`-scaled
transform, spawns exactly one `Camera2d` entity, and inserts exactly one
`ComputeShaderImage` resource. -/
theorem c4_setup_registration_and_effects :
    buildApp.mainSystems = [(ScheduleLabel.Startup, SystemName.setupSystem)] ∧
    (∀ a : Assets,
      (setup a).images.items.length = a.items.length + 1 ∧
      (setup a).images.items.head? = some (a.next, setupImage) ∧
      setupImage.usage.storage_binding = true ∧
      (setup a).entities =
        [ SpawnedEntity.sprite
            { image := { id := a.next }
              custom_size := some ((SIZE.1 : ℚ), (SIZE.2 : ℚ)) }
            (Transform.from_scale (DISPLAY_FACTOR : ℚ))
        , SpawnedEntity.camera2d ] ∧
      (setup a).resources = [{ texture := { id := a.next } }]) :=
  ⟨rfl, fun _ => ⟨rfl, rfl, rfl, rfl, rfl⟩⟩

/-- Claim C5: after `setup`, the `ComputeShaderImage` resource holds
exactly the handle returned by adding the image asset, the same handle
stored in the displayed sprite's `image` field; and the only other system
touching the render world, `prepare_bind_group`, leaves that resource
unchanged (the node reads the world immutably), so the node always
computes into the image the sprite displays. -/
theorem c5_resource_holds_sprite_image :
    (∀ a : Assets,
      (setup a).resources = [{ texture := (a.add setupImage).2 }] ∧
      (setup a).entities.head? = some (SpawnedEntity.sprite
        { image := (a.add setupImage).2
          custom_size := some ((SIZE.1 : ℚ), (SIZE.2 : ℚ)) }
        (Transform.from_scale (DISPLAY_FACTOR : ℚ)))) ∧
    (∀ st st' : RenderWorldState, prepareStep st = some st' →
      st'.csi = st.csi) := by
  constructor
  · intro a
    exact ⟨rfl, rfl⟩
  · intro st st' h
    unfold prepareStep at h
    cases hb : prepare_bind_group st.pipeline st.gpuImages st.csi with
    | none => rw [hb] at h; exact absurd h (by simp)
    | some bg => rw [hb] at h; simp at h; rw [← h]

/-- Claim C5 witness: the statement instantiated on a concrete asset
store and a concrete render world on which `prepareStep` succeeds. -/
theorem c5_resource_witness :
    ((setup { next := 0, items := [] }).resources =
      [{ texture := ({ next := 0, items := [] } : Assets).add setupImage |>.2 }] ∧
     (setup { next := 0, items := [] }).entities.head? =
       some (SpawnedEntity.sprite
         { image := ({ next := 0, items := [] } : Assets).add setupImage |>.2
           custom_size := some ((SIZE.1 : ℚ), (SIZE.2 : ℚ)) }
         (Transform.from_scale (DISPLAY_FACTOR : ℚ)))) ∧
    (prepareStep sampleRenderWorldState =
      some { sampleRenderWorldState with bindGroup := some sampleBindGroup } ∧
     ({ sampleRenderWorldState with bindGroup := some sampleBindGroup } :
        RenderWorldState).csi = sampleRenderWorldState.csi) :=
  ⟨c5_resource_holds_sprite_image.1 { next := 0, items := [] },
   by decide,
   c5_resource_holds_sprite_image.2 sampleRenderWorldState
     { sampleRenderWorldState with bindGroup := some sampleBindGroup }
     (by decide)⟩

/-- Claim C6: the app registers `prepare_bind_group` in the `Render`
schedule's `PrepareBindGroups` set, and whenever the GPU-image lookup for
the handle in `ComputeShaderImage` yields a view, the system creates a
bind group from that texture view against the pipeline's bind group
layout and inserts it as the `ComputeShaderBindGroup` resource,
overwriting whatever value the resource held before. -/
theorem c6_prepare_binds_image :
    buildApp.renderSystems =
      [(ScheduleLabel.Render, RenderSet.PrepareBindGroups,
        SystemName.prepareBindGroupSystem)] ∧
    (∀ (st : RenderWorldState) (view : GpuImage),
      st.gpuImages.get st.csi.texture = some view →
      prepareStep st = some { st with bindGroup := (some
        (create_bind_group none st.pipeline.bind_group_layout
          [BindingResource.textureView view.texture_view])) }) := by
  constructor
  · rfl
  · intro st view h
    unfold prepareStep prepare_bind_group
    rw [h]
    rfl

/-- Claim C6 witness: the statement instantiated on a concrete render
world holding a GPU image with texture view 5 for the stored handle. -/
theorem c6_prepare_binds_witness :
    sampleRenderWorldState.gpuImages.get sampleRenderWorldState.csi.texture =
      some { texture_view := 5 } ∧
    prepareStep sampleRenderWorldState =
      some { sampleRenderWorldState with bindGroup := (some
        (create_bind_group none
          sampleRenderWorldState.pipeline.bind_group_layout
          [BindingResource.textureView 5])) } :=
  ⟨by decide,
   c6_prepare_binds_image.2 sampleRenderWorldState { texture_view := 5 }
     (by decide)⟩

/-- Claim C7: the dispatch targets a single storage image: the layout
`from_world` creates has exactly one entry — a 2D read-write storage
texture of format `Rgba8Unorm` visible to the COMPUTE stage — each
frame's bind group binds exactly one texture view, and the node's pass
sets exactly one bind group, at index 0 with no dynamic offsets. -/
theorem c7_single_storage_image :
    (∀ cache : PipelineCache,
      (ComputeShaderPipeline.from_world cache).1.bind_group_layout.entries =
        [ { visibility := ShaderStages.COMPUTE
            ty := BindingType.texture_storage_2d TextureFormat.Rgba8Unorm
              StorageTextureAccess.ReadWrite } ]) ∧
    (∀ (p : ComputeShaderPipeline) (ra : RenderAssets)
        (csi : ComputeShaderImage) (view : GpuImage),
      ra.get csi.texture = some view →
      prepare_bind_group p ra csi =
        some (create_bind_group none p.bind_group_layout
          [BindingResource.textureView view.texture_view]) ∧
      [BindingResource.textureView view.texture_view].length = 1) ∧
    (∀ (w : RunWorld) (cp : ComputePipeline),
      w.pipeline_cache.get_compute_pipeline w.pipeline.pipeline = some cp →
      (ComputeShaderNode.run w).1.filter GpuCommand.isSetBindGroup =
        [GpuCommand.setBindGroup 0 w.bind_group []]) := by
  refine ⟨fun _ => rfl, ?_, ?_⟩
  · intro p ra csi view h
    unfold prepare_bind_group
    rw [h]
    exact ⟨rfl, rfl⟩
  · intro w cp h
    unfold ComputeShaderNode.run
    rw [h]
    rfl

/-- Claim C7 witness: the statement instantiated on a concrete cache, a
concrete render world with a GPU image, and a concrete ready world. -/
theorem c7_single_storage_witness :
    (ComputeShaderPipeline.from_world
        { queued := [], compiled := [] }).1.bind_group_layout.entries =
      [ { visibility := ShaderStages.COMPUTE
          ty := BindingType.texture_storage_2d TextureFormat.Rgba8Unorm
            StorageTextureAccess.ReadWrite } ] ∧
    (sampleRenderWorldState.gpuImages.get sampleRenderWorldState.csi.texture =
      some { texture_view := 5 } ∧
     prepare_bind_group sampleRenderWorldState.pipeline
        sampleRenderWorldState.gpuImages sampleRenderWorldState.csi =
       some (create_bind_group none
         sampleRenderWorldState.pipeline.bind_group_layout
         [BindingResource.textureView 5]) ∧
     [BindingResource.textureView (5 : Nat)].length = 1) ∧
    (readyCacheWorld.pipeline_cache.get_compute_pipeline
        readyCacheWorld.pipeline.pipeline = some { id := 7 } ∧
     (ComputeShaderNode.run readyCacheWorld).1.filter
        GpuCommand.isSetBindGroup =
       [GpuCommand.setBindGroup 0 readyCacheWorld.bind_group []]) :=
  ⟨c7_single_storage_image.1 { queued := [], compiled := [] },
   ⟨by decide,
    (c7_single_storage_image.2.1 sampleRenderWorldState.pipeline
      sampleRenderWorldState.gpuImages sampleRenderWorldState.csi
      { texture_view := 5 } (by decide)).1,
    (c7_single_storage_image.2.1 sampleRenderWorldState.pipeline
      sampleRenderWorldState.gpuImages sampleRenderWorldState.csi
      { texture_view := 5 } (by decide)).2⟩,
   ⟨by decide,
    c7_single_storage_image.2.2 readyCacheWorld { id := 7 } (by decide)⟩⟩

/-- Claim C9: the plugin adds a render-graph edge from the compute node's
label to the camera driver's label, so every node execution order that
respects the graph's edges runs the compute node strictly before the
camera driver — the compute dispatch, when it happens, is encoded before
camera rendering in every frame. -/
theorem c9_compute_before_camera :
    (NodeLabel.computeShaderLabel, NodeLabel.cameraDriverLabel) ∈
      buildApp.graph.edges ∧
    (∀ order : List NodeLabel, respectsEdges buildApp.graph order →
      List.indexOf NodeLabel.computeShaderLabel order <
        List.indexOf NodeLabel.cameraDriverLabel order) := by
  constructor
  · exact List.Mem.head _
  · intro order h
    exact h (NodeLabel.computeShaderLabel, NodeLabel.cameraDriverLabel)
      (List.Mem.head _)

/-- Claim C9 witness: the statement instantiated on the order that runs
the compute node first and the camera driver second. -/
theorem c9_compute_before_camera_witness :
    respectsEdges buildApp.graph
      [NodeLabel.computeShaderLabel, NodeLabel.cameraDriverLabel] ∧
    List.indexOf NodeLabel.computeShaderLabel
        [NodeLabel.computeShaderLabel, NodeLabel.cameraDriverLabel] <
      List.indexOf NodeLabel.cameraDriverLabel
        [NodeLabel.computeShaderLabel, NodeLabel.cameraDriverLabel] :=
  ⟨by decide,
   c9_compute_before_camera.2
     [NodeLabel.computeShaderLabel, NodeLabel.cameraDriverLabel]
     (by decide)⟩

/-- Claim C8: the image `setup` creates is exactly
`1280 / DISPLAY_FACTOR` by `720 / DISPLAY_FACTOR` by 1, i.e. 320 x 180
x 1, of format `Rgba8Unorm`, with every texel initialized to the opaque
red bytes `[255, 0, 0, 255]`; and the sprite's custom size times its
transform scale recovers the 1280 x 720 display size exactly. -/
theorem c8_image_init_and_display_size (i : Nat)
    (hi : i < SIZE.1 * SIZE.2 * 1) :
    setupImage.size =
      { width := 1280 / DISPLAY_FACTOR, height := 720 / DISPLAY_FACTOR
        depth_or_array_layers := 1 } ∧
    setupImage.size.width = 320 ∧ setupImage.size.height = 180 ∧
    setupImage.size.depth_or_array_layers = 1 ∧
    setupImage.format = TextureFormat.Rgba8Unorm ∧
    setupImage.texel i = [255, 0, 0, 255] ∧
    (∀ a : Assets, ∃ s t rest,
      (setup a).entities = SpawnedEntity.sprite s t :: rest ∧
      s.custom_size = some ((SIZE.1 : ℚ), (SIZE.2 : ℚ)) ∧
      t.scale = ((DISPLAY_FACTOR : ℚ), (DISPLAY_FACTOR : ℚ),
        (DISPLAY_FACTOR : ℚ)) ∧
      (SIZE.1 : ℚ) * (DISPLAY_FACTOR : ℚ) = 1280 ∧
      (SIZE.2 : ℚ) * (DISPLAY_FACTOR : ℚ) = 720) := by
  refine ⟨rfl, rfl, rfl, rfl, rfl, ?_, ?_⟩
  · have hdata : setupImage.data =
        (List.replicate (SIZE.1 * SIZE.2 * 1) [255, 0, 0, 255]).flatten :=
      rfl
    unfold Image.texel
    rw [hdata]
    exact texel_of_flatten_replicate [255, 0, 0, 255] rfl _ i hi
  · intro a
    refine ⟨_, _, _, rfl, rfl, rfl, ?_, ?_⟩ <;>
      norm_num [SIZE, DISPLAY_FACTOR]

/-- Claim C8 witness: the statement instantiated at texel index 0 of the
57600-texel image. -/
theorem c8_image_init_witness :
    (0 : Nat) < SIZE.1 * SIZE.2 * 1 ∧
    (setupImage.size =
      { width := 1280 / DISPLAY_FACTOR, height := 720 / DISPLAY_FACTOR
        depth_or_array_layers := 1 } ∧
    setupImage.size.width = 320 ∧ setupImage.size.height = 180 ∧
    setupImage.size.depth_or_array_layers = 1 ∧
    setupImage.format = TextureFormat.Rgba8Unorm ∧
    setupImage.texel 0 = [255, 0, 0, 255] ∧
    (∀ a : Assets, ∃ s t rest,
      (setup a).entities = SpawnedEntity.sprite s t :: rest ∧
      s.custom_size = some ((SIZE.1 : ℚ), (SIZE.2 : ℚ)) ∧
      t.scale = ((DISPLAY_FACTOR : ℚ), (DISPLAY_FACTOR : ℚ),
        (DISPLAY_FACTOR : ℚ)) ∧
      (SIZE.1 : ℚ) * (DISPLAY_FACTOR : ℚ) = 1280 ∧
      (SIZE.2 : ℚ) * (DISPLAY_FACTOR : ℚ) = 720)) :=
  ⟨by decide, c8_image_init_and_display_size 0 (by decide)⟩

end ComputeShaderPlayground
